import Mathlib

/-!
Verification of the deployk8s/wizk8s environment-materialization core.

This file gives a shallow embedding of the pure core of
src/bin/wizk8s.py (and the identical functions in src/bin/deployk8s.py):
the naming engine, the tree scanner, the env/file materializers, the
values assembler, and the secret synchronizer, together with theorems
settling the specification claims.

Modelling conventions:
 - Python strings are Lean String (lists of Char); Python str.lower is
   modelled per character by Char.toLower (faithful on ASCII, which is the
   domain of every name the program manipulates).
 - Python dicts are insertion-ordered association lists; updating an
   existing key keeps its position and replaces the value, as CPython does.
 - Filesystem traversal (Path.rglob) is abstracted as the ordered list of
   regular files it yields, each given by its path components relative to
   the scanned root; directories are skipped by the source and therefore
   never appear in the list.
 - The external collaborators (kubectl, python-dotenv) are modelled from
   the specification of their interfaces, marked in their doc comments.
-/

set_option autoImplicit false

namespace Deployk8s

/-- Source constant GENERIC_SECRET_FIELD_NAME = "value" (wizk8s.py line 38). -/
def GENERIC_SECRET_FIELD_NAME : String := "value"

/-- Source constant VOL_MNT_WHITELIST = '-' + string.ascii_lowercase + string.digits
(wizk8s.py line 44). -/
def VOL_MNT_WHITELIST : String := "-abcdefghijklmnopqrstuvwxyz0123456789"

/-- Python str.lower, modelled per character (ASCII-faithful). -/
def pyLower (s : String) : String := String.mk (s.data.map Char.toLower)

/-- Python str.replace with single-character pattern and replacement,
which acts independently on every character. -/
def pyReplaceChar (old new : Char) (s : String) : String :=
  String.mk (s.data.map (fun c => if c = old then new else c))

/-- Per-character body of the generator expression in make_mntsecret_name
(wizk8s.py line 149): keep a whitelisted character, replace anything else
with a hyphen. -/
def slugChar (c : Char) : Char :=
  if c ∈ VOL_MNT_WHITELIST.data then c else '-'

/-- The slug computed inside make_mntsecret_name (wizk8s.py lines 148-149):
lower-case the whole string, then map each character through the
whitelist filter. -/
def vol_mnt_slug (filepath : String) : String :=
  String.mk ((pyLower filepath).data.map slugChar)

/-- Source make_envsecret_name (wizk8s.py lines 129-131): lower-case the
env var name, replace underscores with hyphens, prepend the prefix.
Note there is no whitelist pass here. -/
def make_envsecret_name (env env_var_name : String) : String :=
  "envsecret-" ++ env ++ "-" ++ pyReplaceChar '_' '-' (pyLower env_var_name)

/-- Modelled from the spec (section 4.1), for refinement comparison with
make_envsecret_name: the spec claims the suffix additionally passes
through the whitelist slug. -/
def spec_envsecret_name (env env_var_name : String) : String :=
  "envsecret-" ++ env ++ "-" ++
    String.mk ((pyReplaceChar '_' '-' (pyLower env_var_name)).data.map slugChar)

/-- Source make_mntsecret_name (wizk8s.py lines 147-150). -/
def make_mntsecret_name (env filepath : String) : String :=
  "mntsecret-" ++ env ++ "-" ++ vol_mnt_slug filepath

/-- Source make_release_name (wizk8s.py lines 83-84): plain concatenation,
no validation of any kind. -/
def make_release_name (chart_name env : String) : String :=
  chart_name ++ "-" ++ env

/-- Modelled from the spec (section 4.1), for refinement comparison with
make_release_name: the spec claims an InvalidArgument failure on an empty
chart name or env. -/
def spec_release_name (chart_name env : String) : Except String String :=
  if chart_name = "" ∨ env = "" then Except.error "InvalidArgument"
  else Except.ok (chart_name ++ "-" ++ env)

/-- The nested secretKeyRef dictionary of an env entry. -/
structure SecretKeyRef where
  key : String
  name : String
  deriving DecidableEq, Repr

/-- The valueFrom wrapper dictionary of an env entry. -/
structure ValueFrom where
  secretKeyRef : SecretKeyRef
  deriving DecidableEq, Repr

/-- One entry of the generated values document env list. -/
structure EnvEntry where
  name : String
  valueFrom : ValueFrom
  deriving DecidableEq, Repr

/-- Source make_envsecret (wizk8s.py lines 134-143). -/
def make_envsecret (env env_var_name : String) : EnvEntry :=
  { name := env_var_name
    valueFrom :=
      { secretKeyRef :=
          { key := GENERIC_SECRET_FIELD_NAME
            name := make_envsecret_name env env_var_name } } }

/-- The secret reference inside a volume dictionary. -/
structure VolumeSecret where
  secretName : String
  deriving DecidableEq, Repr

/-- One entry of the generated volumes list. -/
structure Volume where
  name : String
  secret : VolumeSecret
  deriving DecidableEq, Repr

/-- One entry of the generated volumeMounts list. -/
structure VolumeMount where
  mountPath : String
  name : String
  readOnly : Bool
  deriving DecidableEq, Repr

/-- One entry of the generated imagePullSecrets list. -/
structure PullSecretRef where
  name : String
  deriving DecidableEq, Repr

/-- Source make_mntsecret_volume_data (wizk8s.py lines 153-166). -/
def make_mntsecret_volume_data (env mntdir : String) : Volume × VolumeMount :=
  let name := make_mntsecret_name env mntdir
  ({ name := name, secret := { secretName := name } },
   { mountPath := mntdir, name := name, readOnly := true })

/-- The assembled values document returned by _wiz_genvalues
(wizk8s.py lines 605-610). -/
structure Values where
  env : List EnvEntry
  volumes : List Volume
  volumeMounts : List VolumeMount
  imagePullSecrets : List PullSecretRef
  deriving DecidableEq, Repr

/-- Splits a character list at every occurrence of the given separator
character, like str.split of a single character. -/
def splitOnChar (sep : Char) : List Char → List (List Char)
  | [] => [[]]
  | c :: cs =>
    match splitOnChar sep cs with
    | [] => [[]]
    | h :: t => if c = sep then [] :: h :: t else (c :: h) :: t

/-- Fuel-driven worker for pySplit: scans left to right, emitting the
accumulated chunk whenever the separator is a prefix of the remainder
(non-overlapping occurrences, exactly Python str.split semantics for a
non-empty separator). The fuel is an upper bound on the scanned length. -/
def pySplitAux (sep : List Char) : Nat → List Char → List Char → List (List Char)
  | 0, acc, _ => [acc.reverse]
  | _ + 1, acc, [] => [acc.reverse]
  | fuel + 1, acc, c :: rest =>
    if sep.isPrefixOf (c :: rest) then
      acc.reverse :: pySplitAux sep fuel [] ((c :: rest).drop sep.length)
    else
      pySplitAux sep fuel (c :: acc) rest

/-- Python str.split with a non-empty separator string. Python raises
ValueError on an empty separator; that case cannot arise at the call
site modelled here (the separator is a directory path joined with a
non-empty literal) and is mapped to the whole string. -/
def pySplit (s sep : String) : List String :=
  if sep.data = [] then [s]
  else (pySplitAux sep.data (s.data.length + 1) [] s.data).map String.mk

/-- Joins path component character lists with a slash. -/
def joinComps (sep : Char) : List (List Char) → List Char
  | [] => []
  | [x] => x
  | x :: y :: xs => x ++ sep :: joinComps sep (y :: xs)

/-- Python pathlib parent (str(Path(p).parent)) for the already-normalized
POSIX path strings produced by the scanner: drop the last component; the
parent of a root-level entry is the root itself for absolute paths and
the dot path for relative ones. -/
def pathParent (p : String) : String :=
  let parts := (splitOnChar '/' p.data).filter (fun x => x ≠ [])
  match p.data with
  | '/' :: _ =>
    match parts.dropLast with
    | [] => "/"
    | cs => String.mk ('/' :: joinComps '/' cs)
  | _ =>
    match parts.dropLast with
    | [] => "."
    | cs => String.mk (joinComps '/' cs)

/-- Source MntSecretFileMeta (wizk8s.py lines 40-42). -/
structure MntSecretFileMeta where
  filename : String
  local_path : String
  deriving DecidableEq, Repr

/-- Insertion-ordered dictionary update, as CPython dict assignment:
an existing key keeps its position and gets the new value, a new key is
appended at the end. -/
def pyDictInsert {α β : Type} [DecidableEq α] : List (α × β) → α → β → List (α × β)
  | [], k, v => [(k, v)]
  | (k0, v0) :: rest, k, v =>
    if k0 = k then (k, v) :: rest else (k0, v0) :: pyDictInsert rest k v

/-- Appends a value to the list bucket of a key, as defaultdict(list)
item append: an existing key keeps its position, a new key is appended
at the end with a singleton bucket. -/
def pyBucketAppend {α β : Type} [DecidableEq α] :
    List (α × List β) → α → β → List (α × List β)
  | [], k, v => [(k, [v])]
  | (k0, vs) :: rest, k, v =>
    if k0 = k then (k0, vs ++ [v]) :: rest else (k0, vs) :: pyBucketAppend rest k v

/-- Source _get_file_metas (wizk8s.py lines 504-517, identical in
deployk8s.py lines 465-478). The traversal is abstracted as the ordered
list of regular files rglob yields, each as its non-empty component path
relative to dirpath; for each file the source computes
str(local_path).split(str(dirpath))[1], takes the parent of that path,
and buckets the file metadata under it. -/
def get_file_metas (dirpath : String) (files : List (List String)) :
    List (String × List MntSecretFileMeta) :=
  files.foldl
    (fun bucket comps =>
      let local_path : String :=
        dirpath ++ String.mk ('/' :: joinComps '/' (comps.map String.data))
      let remote_path : String := ((pySplit local_path dirpath).drop 1).headD ""
      pyBucketAppend bucket (pathParent remote_path)
        { filename := (comps.getLastD ""), local_path := local_path })
    []

/-- Modelled from the spec (sections 4.4 and 7): the python-dotenv
collaborator dotenv_values — an absent dotenv file yields an empty
mapping rather than an error, and duplicate keys within the file are
last-write-wins while keeping first-occurrence order. -/
def dotenv_values (file : Option (List (String × String))) : List (String × String) :=
  match file with
  | none => []
  | some kvs => kvs.foldl (fun acc kv => pyDictInsert acc kv.1 kv.2) []

/-- Decoded contents of one remote secret object. -/
abbrev SecretContents := List (String × String)

/-- The remote secret store, keyed by (namespace, secret name). -/
abbrev SecretStore := List ((String × String) × SecretContents)

/-- Looks up the decoded contents of a remote secret object. -/
def lookupSecret (store : SecretStore) (ns secret_name : String) :
    Option SecretContents :=
  List.lookup (ns, secret_name) store

/-- Modelled from the spec (sections 4.6 and 6): the secret-store
collaborator applyGeneric — server-side apply of the rendered manifest
replaces the object named (namespace, name) with exactly the given
contents, creating it when absent; the apply is atomic per object. -/
def applyGeneric (store : SecretStore) (ns secret_name : String)
    (contents : SecretContents) : SecretStore :=
  pyDictInsert store (ns, secret_name) contents

/-- Source _set_secret_multi_cmd (wizk8s.py lines 169-195): renders the
desired secret via a client dry-run create keeping the contents map
intact, then applies the rendered manifest, so create and update share
one code path. -/
def set_secret_multi_cmd (store : SecretStore) (ns secret_name : String)
    (secrets : SecretContents) : SecretStore :=
  applyGeneric store ns secret_name secrets

/-- Source _set_secret_cmd (wizk8s.py lines 198-199). -/
def set_secret_cmd (store : SecretStore) (ns secret_name secret_value : String) :
    SecretStore :=
  set_secret_multi_cmd store ns secret_name
    [(GENERIC_SECRET_FIELD_NAME, secret_value)]

/-- Source _push_envfile (wizk8s.py lines 442-448): one single-key secret
per dotenv entry, in file order. -/
def push_envfile (store : SecretStore) (ns env : String)
    (dotenv_file : Option (List (String × String))) : SecretStore :=
  (dotenv_values dotenv_file).foldl
    (fun st kv => set_secret_cmd st ns (make_envsecret_name env kv.1) kv.2)
    store

/-- Source _set_files_as_secret (wizk8s.py lines 463-480): rejects an
empty remote directory before reading anything, then reads every listed
local file (fs maps a local path to its textual contents; a missing file
raises), assembles the contents dictionary keyed by filename, and pushes
it as one multi-key secret. -/
def set_files_as_secret (fs : List (String × String)) (store : SecretStore)
    (ns env remote_dir : String) (file_metas : List MntSecretFileMeta) :
    Except String SecretStore :=
  if remote_dir = "" then
    Except.error "You must specify a full remote path, not just a filename"
  else do
    let secret_name := make_mntsecret_name env remote_dir
    let secret_contents ← file_metas.foldlM
      (fun acc fm =>
        match List.lookup fm.local_path fs with
        | none => Except.error "FileNotFoundError"
        | some contents => Except.ok (pyDictInsert acc fm.filename contents))
      ([] : SecretContents)
    return set_secret_multi_cmd store ns secret_name secret_contents

/-- Source _wiz_genvalues (wizk8s.py lines 585-612). The sidecar config
reads (envName, imagePullSecret) are abstracted as arguments, the dotenv
file at dirpath/.env as an optional entry list, and the tree under
dirpath/secretfiles as the scanner input list. -/
def wiz_genvalues (dirpath env_name image_pull_secret_name : String)
    (dotenv_file : Option (List (String × String)))
    (secretfiles : List (List String)) : Values :=
  let dotenv_vals := dotenv_values dotenv_file
  let envs := dotenv_vals.map (fun kv => make_envsecret env_name kv.1)
  let groups := get_file_metas (dirpath ++ "/secretfiles") secretfiles
  let pairs := groups.map (fun g => make_mntsecret_volume_data env_name g.1)
  { env := envs
    volumes := pairs.map (fun p => p.1)
    volumeMounts := pairs.map (fun p => p.2)
    imagePullSecrets := [{ name := image_pull_secret_name }] }

/-! Helper lemmas shared by the claim theorems. -/

/-- Dictionary update followed by lookup of the same key yields exactly the
value just written (stated at the secret store key and value types). -/
theorem lookup_pyDictInsert (l : SecretStore) (k : String × String)
    (v : SecretContents) :
    List.lookup k (pyDictInsert l k v) = some v := by
  induction l with
  | nil => simp [pyDictInsert, List.lookup]
  | cons p rest ih =>
    obtain ⟨k0, v0⟩ := p
    by_cases h : k0 = k
    · simp [pyDictInsert, h, List.lookup]
    · simp only [pyDictInsert, if_neg h, List.lookup]
      have hne : (k == k0) = false := by
        simp only [beq_eq_false_iff_ne, ne_eq]
        exact fun hk => h hk.symm
      simp [hne, ih]

/-- Every whitelisted character is fixed by lower-casing and by the
whitelist filter. -/
theorem wl_char_fixed :
    ∀ c ∈ VOL_MNT_WHITELIST.data, Char.toLower c = c ∧ slugChar c = c := by
  decide

/-- One pass of the mount-slug character transform is idempotent. -/
theorem slug_char_idem (c : Char) :
    slugChar (Char.toLower (slugChar (Char.toLower c))) = slugChar (Char.toLower c) := by
  by_cases h : Char.toLower c ∈ VOL_MNT_WHITELIST.data
  · have h1 : slugChar (Char.toLower c) = Char.toLower c := if_pos h
    rw [h1, (wl_char_fixed _ h).1, h1]
  · have h1 : slugChar (Char.toLower c) = '-' := if_neg h
    rw [h1]
    decide

/-- The character set of conventional environment-variable names:
ASCII letters, digits and the underscore. -/
def ENV_VAR_NAME_CHARS : List Char :=
  "ABCDEFGHIJKLMNOPQRSTUVWXYZabcdefghijklmnopqrstuvwxyz0123456789_".data

/-- On the environment-variable character set, the whitelist filter fixes
the result of lower-casing followed by underscore replacement. -/
theorem envvar_char_slug_fixed :
    ∀ c ∈ ENV_VAR_NAME_CHARS,
      slugChar (if Char.toLower c = '_' then '-' else Char.toLower c)
        = if Char.toLower c = '_' then '-' else Char.toLower c := by
  decide

/-- List form of the previous lemma, along a whole name. -/
theorem slug_fixes_envvar_list (l : List Char)
    (h : ∀ c ∈ l, c ∈ ENV_VAR_NAME_CHARS) :
    ((l.map Char.toLower).map (fun c => if c = '_' then '-' else c)).map slugChar
      = (l.map Char.toLower).map (fun c => if c = '_' then '-' else c) := by
  induction l with
  | nil => rfl
  | cons c cs ih =>
    simp only [List.map_cons, List.cons.injEq]
    refine ⟨envvar_char_slug_fixed c (h c (List.mem_cons_self c cs)), ?_⟩
    exact ih (fun x hx => h x (List.mem_cons_of_mem c hx))

/-- C6: the mount-secret slug (lower-case, then map every character outside
the whitelist of lower-case letters, digits and hyphen to a hyphen) is a
total function, is idempotent, and make_mntsecret_name is deterministic:
equal inputs give equal outputs. -/
theorem C6_slug_total_idempotent :
    (∀ s : String, vol_mnt_slug (vol_mnt_slug s) = vol_mnt_slug s)
    ∧ ∀ (env fp1 fp2 : String), fp1 = fp2 →
        make_mntsecret_name env fp1 = make_mntsecret_name env fp2 := by
  constructor
  · intro s
    show String.mk _ = String.mk _
    simp only [vol_mnt_slug, pyLower, List.map_map]
    congr 1
    induction s.data with
    | nil => rfl
    | cons c cs ih =>
      simp only [List.map_cons, List.cons.injEq, Function.comp]
      exact ⟨slug_char_idem c, ih⟩
  · intro env fp1 fp2 h
    rw [h]

/-- Witness for C6 at concrete inputs. -/
theorem C6_slug_total_idempotent_witness :
    vol_mnt_slug (vol_mnt_slug "/Conf Dir_1") = vol_mnt_slug "/Conf Dir_1"
    ∧ make_mntsecret_name "dev" "/conf" = make_mntsecret_name "dev" "/conf" :=
  ⟨C6_slug_total_idempotent.1 "/Conf Dir_1",
   C6_slug_total_idempotent.2 "dev" "/conf" "/conf" rfl⟩

/-- C5 counterexample: for the name "A.B" the code returns
"envsecret-dev-a.b", whose suffix keeps the dot, while the claimed
whitelist slug would produce "envsecret-dev-a-b"; the two disagree, so
make_envsecret_name applies no whitelist sanitization. -/
theorem C5_claim_false :
    make_envsecret_name "dev" "A.B" = "envsecret-dev-a.b"
    ∧ spec_envsecret_name "dev" "A.B" = "envsecret-dev-a-b"
    ∧ make_envsecret_name "dev" "A.B" ≠ spec_envsecret_name "dev" "A.B" := by
  refine ⟨rfl, rfl, ?_⟩
  decide

/-- C5 (amended): make_envsecret_name returns
"envsecret-" ++ env ++ "-" ++ (the name lower-cased with underscores
replaced by hyphens) with no whitelist pass; the claimed formula (with the
whitelist slug applied on top) agrees with the code exactly when every
character of the name is an ASCII letter, digit or underscore. -/
theorem C5_envsecret_name_amended : ∀ (env env_var_name : String),
    make_envsecret_name env env_var_name
      = "envsecret-" ++ env ++ "-" ++ pyReplaceChar '_' '-' (pyLower env_var_name)
    ∧ ((∀ c ∈ env_var_name.data, c ∈ ENV_VAR_NAME_CHARS) →
        make_envsecret_name env env_var_name = spec_envsecret_name env env_var_name) := by
  intro env env_var_name
  refine ⟨rfl, fun h => ?_⟩
  show _ = "envsecret-" ++ env ++ "-" ++ String.mk _
  have hdata : (pyReplaceChar '_' '-' (pyLower env_var_name)).data
      = (env_var_name.data.map Char.toLower).map (fun c => if c = '_' then '-' else c) := rfl
  rw [make_envsecret_name, hdata, slug_fixes_envvar_list env_var_name.data h]
  rfl

/-- Witness for C5 (amended) at a concrete conventional name. -/
theorem C5_envsecret_name_amended_witness :
    make_envsecret_name "dev" "MY_VAR2" = spec_envsecret_name "dev" "MY_VAR2"
    ∧ make_envsecret_name "dev" "MY_VAR2" = "envsecret-dev-my-var2" :=
  ⟨(C5_envsecret_name_amended "dev" "MY_VAR2").2 (by decide), by decide⟩

/-- C7 counterexample: with an empty chart name the code happily returns
"-dev" where the claim demands an InvalidArgument failure. -/
theorem C7_claim_false :
    make_release_name "" "dev" = "-dev"
    ∧ spec_release_name "" "dev" = Except.error "InvalidArgument" := by
  exact ⟨rfl, rfl⟩

/-- C7 (amended): make_release_name concatenates chart name and env with a
hyphen for every input, empty strings included — it performs no
validation, and its output always has length chartName.length + 1 +
env.length (in particular it is never empty). -/
theorem C7_release_name_total : ∀ (chart_name env : String),
    make_release_name chart_name env = chart_name ++ "-" ++ env
    ∧ (make_release_name chart_name env).length
        = chart_name.length + 1 + env.length := by
  intro c e
  refine ⟨rfl, ?_⟩
  have h1 : ("-" : String).length = 1 := rfl
  simp [make_release_name, String.length_append, h1]

/-- C2: after the secret synchronizer runs, the remote secret object with
the desired name in the desired namespace exists and its decoded contents
equal the desired contents exactly (extra keys removed, missing keys
added, changed values overwritten); in particular syncing contents
{a: va} and then {b: vb} leaves exactly {b: vb}. -/
theorem C2_sync_contract :
    (∀ (store : SecretStore) (ns secret_name : String) (contents : SecretContents),
      lookupSecret (set_secret_multi_cmd store ns secret_name contents) ns secret_name
        = some contents)
    ∧ ∀ (store : SecretStore) (ns secret_name va vb : String),
      lookupSecret
        (set_secret_multi_cmd (set_secret_multi_cmd store ns secret_name [("a", va)])
          ns secret_name [("b", vb)]) ns secret_name
        = some [("b", vb)] := by
  constructor
  · intro store ns secret_name contents
    simp only [lookupSecret, set_secret_multi_cmd, applyGeneric]
    exact lookup_pyDictInsert store (ns, secret_name) contents
  · intro store ns secret_name va vb
    simp only [lookupSecret, set_secret_multi_cmd, applyGeneric]
    exact lookup_pyDictInsert _ (ns, secret_name) _

/-- C8: an absent dotenv file is treated as an empty mapping, not an
error: _push_envfile pushes zero secrets (the store is unchanged) and
_wiz_genvalues produces an empty env list. -/
theorem C8_missing_dotenv :
    ∀ (store : SecretStore) (ns env dirpath env_name ips : String)
      (files : List (List String)),
      push_envfile store ns env none = store
      ∧ (wiz_genvalues dirpath env_name ips none files).env = [] := by
  intro store ns env dirpath env_name ips files
  exact ⟨rfl, rfl⟩

/-- C9 (implicit invariant): for every input, the assembled values
document has volumes and volumeMounts index-aligned — the name lists
coincide, each volume references itself as secretName, every mount is
readOnly, and the shared name at each position is the mount-secret name
derived from that position's group key. -/
theorem C9_volumes_mounts_aligned :
    ∀ (dirpath env_name ips : String)
      (dotenv_file : Option (List (String × String))) (files : List (List String)),
      ((wiz_genvalues dirpath env_name ips dotenv_file files).volumes.map
          (fun v => v.name))
        = ((wiz_genvalues dirpath env_name ips dotenv_file files).volumeMounts.map
            (fun m => m.name))
      ∧ ((wiz_genvalues dirpath env_name ips dotenv_file files).volumes.map
          (fun v => v.secret.secretName))
        = ((wiz_genvalues dirpath env_name ips dotenv_file files).volumes.map
            (fun v => v.name))
      ∧ ((wiz_genvalues dirpath env_name ips dotenv_file files).volumeMounts.all
          (fun m => m.readOnly)) = true
      ∧ ((wiz_genvalues dirpath env_name ips dotenv_file files).volumes.map
          (fun v => v.name))
        = ((get_file_metas (dirpath ++ "/secretfiles") files).map
            (fun g => make_mntsecret_name env_name g.1)) := by
  intro dirpath env_name ips dotenv_file files
  refine ⟨?_, ?_, ?_, ?_⟩
  · simp only [wiz_genvalues, List.map_map]
    rfl
  · simp only [wiz_genvalues, List.map_map]
    rfl
  · simp only [wiz_genvalues, List.all_eq_true]
    intro m hm
    simp only [List.map_map, List.mem_map] at hm
    obtain ⟨a, ha, rfl⟩ := hm
    rfl
  · simp only [wiz_genvalues, List.map_map]
    rfl

/-- C10 (implicit): every env entry keeps the dotenv key verbatim as its
outer name; only the nested secretKeyRef.name is transformed by the
naming scheme, and secretKeyRef.key is always the fixed generic field
name "value". -/
theorem C10_env_entries :
    ∀ (dirpath env_name ips : String)
      (dotenv_file : Option (List (String × String))) (files : List (List String)),
      ((wiz_genvalues dirpath env_name ips dotenv_file files).env.map
          (fun e => e.name))
        = (dotenv_values dotenv_file).map Prod.fst
      ∧ ∀ e ∈ (wiz_genvalues dirpath env_name ips dotenv_file files).env,
          e.valueFrom.secretKeyRef.key = GENERIC_SECRET_FIELD_NAME
          ∧ e.valueFrom.secretKeyRef.name = make_envsecret_name env_name e.name := by
  intro dirpath env_name ips dotenv_file files
  constructor
  · simp only [wiz_genvalues, List.map_map]
    rfl
  · intro e he
    simp only [wiz_genvalues, List.mem_map] at he
    obtain ⟨kv, hkv, rfl⟩ := he
    exact ⟨rfl, rfl⟩

/-- Witness for C10 at a concrete dotenv entry. -/
theorem C10_env_entries_witness :
    ((wiz_genvalues "d" "dev" "p" (some [("MY_VAR", "x")]) []).env.map
        (fun e => e.name)) = ["MY_VAR"]
    ∧ (({ name := "MY_VAR"
          valueFrom := { secretKeyRef := { key := "value", name := "envsecret-dev-my-var" } } }
            : EnvEntry).valueFrom.secretKeyRef.key = GENERIC_SECRET_FIELD_NAME
        ∧ ({ name := "MY_VAR"
             valueFrom := { secretKeyRef := { key := "value", name := "envsecret-dev-my-var" } } }
               : EnvEntry).valueFrom.secretKeyRef.name
            = make_envsecret_name "dev"
                ({ name := "MY_VAR"
                   valueFrom := { secretKeyRef := { key := "value", name := "envsecret-dev-my-var" } } }
                     : EnvEntry).name) := by
  refine ⟨?_, ?_⟩
  · rw [(C10_env_entries "d" "dev" "p" (some [("MY_VAR", "x")]) []).1]
    rfl
  · exact (C10_env_entries "d" "dev" "p" (some [("MY_VAR", "x")]) []).2 _ (by decide)

/-- C1 counterexample: on the claimed scenario (envName "dev",
imagePullSecret "pull-dev", dotenv {PORT=8080}, one secret file
conf/app.yaml) the assembled values document differs from the one the
claim states: the group key carries a leading slash, so the mount path is
"/conf" and the secret name is "mntsecret-dev--conf". -/
theorem C1_claim_false :
    wiz_genvalues "/data/env" "dev" "pull-dev" (some [("PORT", "8080")])
        [["conf", "app.yaml"]]
      ≠ { env := [{ name := "PORT"
                    valueFrom := { secretKeyRef := { key := "value", name := "envsecret-dev-port" } } }]
          volumes := [{ name := "mntsecret-dev-conf"
                        secret := { secretName := "mntsecret-dev-conf" } }]
          volumeMounts := [{ mountPath := "conf", name := "mntsecret-dev-conf", readOnly := true }]
          imagePullSecrets := [{ name := "pull-dev" }] } := by
  decide

/-- C1 (amended): on that scenario the values assembler returns the env
entry and imagePullSecrets exactly as claimed, but the volume and mount
carry the scanner's leading-slash group key: volume name and secretName
are "mntsecret-dev--conf" and the mount path is "/conf". -/
theorem C1_values_assembly :
    wiz_genvalues "/data/env" "dev" "pull-dev" (some [("PORT", "8080")])
        [["conf", "app.yaml"]]
      = { env := [{ name := "PORT"
                    valueFrom := { secretKeyRef := { key := "value", name := "envsecret-dev-port" } } }]
          volumes := [{ name := "mntsecret-dev--conf"
                        secret := { secretName := "mntsecret-dev--conf" } }]
          volumeMounts := [{ mountPath := "/conf", name := "mntsecret-dev--conf", readOnly := true }]
          imagePullSecrets := [{ name := "pull-dev" }] } := by
  decide

/-- C3 counterexample: scanning foo/bar.txt and foo/baz.txt yields a
single group, but its key is "/foo" (leading slash), not "foo". -/
theorem C3_claim_false :
    ((get_file_metas "/data/secretfiles" [["foo", "bar.txt"], ["foo", "baz.txt"]]).map
        Prod.fst) = ["/foo"]
    ∧ ((get_file_metas "/data/secretfiles" [["foo", "bar.txt"], ["foo", "baz.txt"]]).map
        Prod.fst) ≠ ["foo"] := by
  exact ⟨by decide, by decide⟩

/-- C3 (amended): scanning a root with exactly foo/bar.txt and
foo/baz.txt yields exactly one group, keyed "/foo", holding one FileMeta
per file in scan order, filename the basename and local path the full
local source path. -/
theorem C3_grouping :
    get_file_metas "/data/secretfiles" [["foo", "bar.txt"], ["foo", "baz.txt"]]
      = [("/foo",
          [{ filename := "bar.txt", local_path := "/data/secretfiles/foo/bar.txt" },
           { filename := "baz.txt", local_path := "/data/secretfiles/foo/baz.txt" }])] := by
  decide

/-- C4 counterexample: a file directly at the scan root is grouped under
the key "/" (not the empty string), and _set_files_as_secret accepts "/"
and pushes the mount secret "mntsecret-dev--" — the pipeline does push a
mount secret for a root-level file instead of rejecting it. -/
theorem C4_claim_false :
    ((get_file_metas "/data/secretfiles" [["app.yaml"]]).map Prod.fst) = ["/"]
    ∧ set_files_as_secret [("/data/secretfiles/app.yaml", "contents")] [] "myns" "dev" "/"
        [{ filename := "app.yaml", local_path := "/data/secretfiles/app.yaml" }]
      = Except.ok [(("myns", "mntsecret-dev--"), [("app.yaml", "contents")])] := by
  exact ⟨by decide, rfl⟩

/-- C4 (amended): _set_files_as_secret fails (before reading or pushing
anything) exactly when the remote directory argument is the empty string;
the scanner, however, maps a root-level file to the non-empty key "/",
which passes that check, so the scanner-plus-materializer pipeline does
push a mount secret for a root-level file. -/
theorem C4_empty_remote_dir :
    ∀ (fs : List (String × String)) (store : SecretStore) (ns env : String)
      (file_metas : List MntSecretFileMeta),
      set_files_as_secret fs store ns env "" file_metas
        = Except.error "You must specify a full remote path, not just a filename" := by
  intro fs store ns env file_metas
  rfl

end Deployk8s
